import Mathlib

/-!
Shallow embedding of the trading-decision core of
`quant-agents/personal_trading_system.py` (AlphaSignalGenerator,
RiskManagementEngine, ExecutionEngine, ComplianceEngine), together with
theorems checking the natural-language specification against it.

Python floats are modelled as rationals (ℚ); Python `int(x)` on a
non-negative value is the floor; Python dicts with `.get(key, default)`
are modelled as association lists with a lookup-with-default function.
-/

namespace TradingSystem

/-! ## RiskManagementEngine.calculate_kelly_fraction (source lines 416-429)

    def calculate_kelly_fraction(self, expected_return, win_probability):
        if expected_return <= 0 or win_probability <= 0.5:
            return 0.0
        loss_probability = 1 - win_probability
        win_loss_ratio = 2.0
        kelly = win_probability - (loss_probability / win_loss_ratio)
        return max(0, min(kelly * 0.25, 0.1))
-/

def calculate_kelly_fraction (expected_return : ℚ) (win_probability : ℚ) : ℚ :=
  if expected_return ≤ 0 ∨ win_probability ≤ 1/2 then 0
  else
    let loss_probability := 1 - win_probability
    let win_loss_ratio : ℚ := 2
    let kelly := win_probability - loss_probability / win_loss_ratio
    max 0 (min (kelly * (1/4)) (1/10))

/-! ## Risk Engine data model (source lines 350-414, 440-509)

Account and Signal mirror the fields of the brokerage account snapshot and
the signal dicts that `optimize_portfolio` reads; Order mirrors the order
dicts it appends; RiskMetrics mirrors the dict built by
`calculate_portfolio_risk`.  The brokerage `get_position` call is a
parameter returning the position's current price or an error. -/

structure Account where
  equity : ℚ
  buying_power : ℚ
deriving DecidableEq

structure Signal where
  symbol : String
  direction : ℤ
  confidence : ℚ
  expected_return : ℚ
deriving DecidableEq

structure Order where
  symbol : String
  quantity : ℕ
  side : String
  order_type : String
  time_in_force : String
  signal : Signal
deriving DecidableEq

structure RiskMetrics where
  var_95 : ℚ
  var_99 : ℚ
  expected_shortfall : ℚ
  current_leverage : ℚ
  concentration_risk : ℚ
  correlation_risk : ℚ
deriving DecidableEq

/-- `self.max_position_size = 0.1` (source line 356). -/
def max_position_size : ℚ := 1/10

/-- `self.max_leverage = 2.0` (source line 357). -/
def max_leverage : ℚ := 2

/-! `RiskManagementEngine.get_current_price` (source lines 431-438): returns
the position's current price, and on any brokerage failure falls back to the
constant 100.0. -/

def RiskManagementEngine.get_current_price
    (get_position : String → Except String ℚ) (symbol : String) : ℚ :=
  match get_position symbol with
  | Except.ok price => price
  | Except.error _ => 100

/-! `RiskManagementEngine.apply_risk_constraints` (source lines 492-509):
halve every quantity (Python `int(q * 0.5)` = floor) when leverage exceeds
80% of the maximum, keep only the first 3 orders when concentration exceeds
0.3, then drop zero-quantity orders. -/

def apply_risk_constraints (orders : List Order) (risk_metrics : RiskMetrics) :
    List Order :=
  let orders₁ :=
    if max_leverage * (8/10) < risk_metrics.current_leverage then
      orders.map (fun o => { o with quantity := o.quantity / 2 })
    else orders
  let orders₂ :=
    if (3/10 : ℚ) < risk_metrics.concentration_risk then orders₁.take 3
    else orders₁
  orders₂.filter (fun o => decide (0 < o.quantity))

/-! The body of `optimize_portfolio`'s per-signal loop (source lines 380-409):
Kelly sizing, the three-way min, the minimum-notional floor of 100, and the
conversion to an integer share quantity (Python `int` of a positive value =
floor). -/

def size_signal (account : Account) (get_position : String → Except String ℚ)
    (signal : Signal) : Option Order :=
  if signal.direction = 0 then none
  else
    let kelly_fraction :=
      calculate_kelly_fraction signal.expected_return signal.confidence
    let position_size := min (kelly_fraction * account.equity)
      (min (max_position_size * account.equity) (account.buying_power * (9/10)))
    if 100 < position_size then
      let quantity := (⌊position_size /
        RiskManagementEngine.get_current_price get_position signal.symbol⌋).toNat
      if 0 < quantity then
        some { symbol := signal.symbol, quantity := quantity,
               side := if 0 < signal.direction then "buy" else "sell",
               order_type := "limit", time_in_force := "day", signal := signal }
      else none
    else none

/-! `RiskManagementEngine.optimize_portfolio` (source lines 361-414): filter
signals by confidence > 0.6, size each retained non-neutral signal, then run
the portfolio-level constraint pass.  The risk metrics (produced in the
source by the brokerage-dependent `calculate_portfolio_risk`) enter as a
parameter. -/

def optimize_portfolio (signals : List Signal) (account : Account)
    (get_position : String → Except String ℚ) (risk_metrics : RiskMetrics) :
    List Order :=
  let high_confidence_signals :=
    signals.filter (fun s => decide ((6/10 : ℚ) < s.confidence))
  let orders := high_confidence_signals.filterMap (size_signal account get_position)
  apply_risk_constraints orders risk_metrics

/-- A concrete high-confidence buy signal, used to exercise the sizing path. -/
def demoSignal : Signal :=
  { symbol := "AAPL", direction := 1, confidence := 8/10,
    expected_return := 16/1000 }

/-- A concrete $100{,}000$ account snapshot. -/
def demoAccount : Account := { equity := 100000, buying_power := 100000 }

/-- A brokerage stub that always reports price 50. -/
def demoBroker : String → Except String ℚ := fun _ => Except.ok 50

/-- A benign risk-metrics snapshot (no leverage, no concentration). -/
def demoRisk : RiskMetrics :=
  { var_95 := 0, var_99 := 0, expected_shortfall := 0, current_leverage := 0,
    concentration_risk := 0, correlation_risk := 1/2 }

/-- The order the demo scenario produces: 200 shares at price 50. -/
def demoOrder : Order :=
  { symbol := "AAPL", quantity := 200, side := "buy", order_type := "limit",
    time_in_force := "day", signal := demoSignal }

/-- A risk-metrics snapshot whose leverage 2 exceeds 80% of the maximum. -/
def demoRiskHighLev : RiskMetrics :=
  { var_95 := 0, var_99 := 0, expected_shortfall := 0, current_leverage := 2,
    concentration_risk := 0, correlation_risk := 1/2 }

/-- The demo order after the leverage-triggered halving. -/
def demoOrderHalf : Order := { demoOrder with quantity := 100 }

/-! ## ExecutionEngine.adaptive_execution chunking (source lines 598-635)

    chunk_size = max(1, order['quantity'] // 5)
    remaining = order['quantity']
    while remaining > 0:
        current_chunk = min(chunk_size, remaining)
        chunks.append(current_chunk)
        remaining -= current_chunk

The while loop is embedded with a fuel argument; `chunk_size ≥ 1`, so each
iteration consumes at least one unit and fuel equal to the initial quantity
suffices (the fuel-exhausted branch is unreachable at the call site). -/

def buildChunks (chunk_size : ℕ) : ℕ → ℕ → List ℕ
  | _, 0 => []
  | 0, _ + 1 => []
  | fuel + 1, r + 1 =>
    let current_chunk := min chunk_size (r + 1)
    current_chunk :: buildChunks chunk_size fuel (r + 1 - current_chunk)

/-- The chunk list `adaptive_execution` builds for a given order quantity. -/
def adaptive_chunks (quantity : ℕ) : List ℕ :=
  buildChunks (max 1 (quantity / 5)) quantity quantity

/-- Number of inter-chunk delays: the source sleeps after chunk `i` exactly
when `i < len(chunks) - 1`. -/
def adaptive_delay_count (quantity : ℕ) : ℕ :=
  (List.range (adaptive_chunks quantity).length).countP
    (fun i => decide (i < (adaptive_chunks quantity).length - 1))

/-! ## ComplianceEngine (source lines 774-852)

The trade log holds entries `{'timestamp': datetime.now(), 'execution': ...}`
appended by `post_trade_surveillance`; timestamps are modelled in whole days,
so Python's `(datetime.now() - trade['timestamp']).days` is `now - timestamp`. -/

structure TradeExecution where
  symbol : String
  side : String
deriving DecidableEq

structure TradeLogEntry where
  timestamp : ℤ
  execution : TradeExecution
deriving DecidableEq

/-- `ComplianceEngine.is_wash_sale` (source lines 835-852): a buy order is
flagged when the trailing-30-day log holds a sell of the same instrument. -/
def is_wash_sale (trade_log : List TradeLogEntry) (now : ℤ)
    (order_symbol order_side : String) : Bool :=
  let recent_trades := trade_log.filter (fun trade =>
    trade.execution.symbol == order_symbol &&
      decide (now - trade.timestamp ≤ 30))
  recent_trades.any (fun trade =>
    trade.execution.side == "sell" && order_side == "buy")

/-- `ComplianceEngine.is_pattern_day_trader_violation` (source lines 816-828):
its body begins by evaluating `os.getenv(...)`, but the module never imports
`os`, so every call raises `NameError: name 'os' is not defined` before any
account data is touched; like every other Python exception this is modelled
with `Except.error`. -/
def is_pattern_day_trader_violation : Except String Bool :=
  Except.error "NameError: name 'os' is not defined"

/-- `ComplianceEngine.exceeds_position_limit` (source lines 830-833):
a stubbed policy hook that always reports no violation. -/
def exceeds_position_limit : Bool := false

/-- `ComplianceEngine.pre_trade_check` (source lines 782-798): runs the PDT
check, the position-limit check and the wash-sale check in order, collecting
the violation messages, and passes iff none fired; an exception raised by a
check propagates out of `pre_trade_check` (the source has no `try` here), so
the unconditional `NameError` of the PDT check aborts every call before the
violations list is built. -/
def pre_trade_check (trade_log : List TradeLogEntry) (now : ℤ)
    (order_symbol order_side : String) : Except String (Bool × List String) :=
  match is_pattern_day_trader_violation with
  | Except.error e => Except.error e
  | Except.ok pdt =>
    let violations :=
      (if pdt then ["Pattern day trading rule violation"] else []) ++
      (if exceeds_position_limit then
        ["Position concentration limit exceeded"] else []) ++
      (if is_wash_sale trade_log now order_symbol order_side then
        ["Potential wash sale detected"] else [])
    Except.ok (violations.length == 0, violations)

/-! ## AlphaSignalGenerator.ml_predict (source lines 304-347)

The feature inputs are Python dicts read only through `.get(key, default)`,
modelled as association lists with a lookup-with-default. -/

/-- Python `d.get(key, default)` over an association-list dict. -/
def dictGet (d : List (String × ℚ)) (key : String) (default : ℚ) : ℚ :=
  match d.find? (fun kv => kv.1 == key) with
  | some kv => kv.2
  | none => default

structure MLSignal where
  direction : ℤ
  confidence : ℚ
  expected_return : ℚ
  holding_period : String
deriving DecidableEq

/-- The accumulated (score, confidence) pair of `ml_predict`'s heuristic,
before the 0.9 cap on confidence is taken (source lines 310-332). -/
def ml_score_conf (micro_features tech_signals : List (String × ℚ)) : ℤ × ℚ :=
  let s0 : ℤ × ℚ := (0, 1/2)
  let s1 := if dictGet micro_features "kyle_lambda" 0 < 0 then
    (s0.1 + 1, s0.2 + 1/10) else s0
  let s2 := if dictGet micro_features "vpin" 0 < 3/10 then
    (s1.1 + 1, s1.2 + 1/10) else s1
  let rsi := dictGet tech_signals "rsi" 50
  let s3 := if rsi < 30 then (s2.1 + 2, s2.2 + 2/10)
    else if 70 < rsi then (s2.1 - 2, s2.2 + 2/10) else s2
  if 0 < dictGet tech_signals "macd_signal" 0 then
    (s3.1 + 1, s3.2 + 1/10) else s3

/-- `AlphaSignalGenerator.ml_predict` (source lines 304-347): the returned
dict caps the confidence at 0.9 but computes `expected_return` from the
uncapped local `confidence` variable. -/
def ml_predict (micro_features tech_signals : List (String × ℚ)) : MLSignal :=
  let sc := ml_score_conf micro_features tech_signals
  let score := sc.1
  let confidence := sc.2
  let direction : ℤ := if 1 < score then 1 else if score < -1 then -1 else 0
  { direction := direction,
    confidence := min confidence (9/10),
    expected_return := (direction : ℚ) * confidence * (2/100),
    holding_period := if 7/10 < confidence then "1D" else "4H" }

/-! ## ExecutionEngine (source lines 512-643)

A Python exception raised anywhere inside a strategy is modelled as
`Except.error`: it propagates to `execute_order`'s boundary, whose
`try/except` converts it into a `failed` result dict. -/

/-- A broker submission request (`MarketOrderRequest` / `LimitOrderRequest`,
source lines 553-558 and 580-586). -/
inductive OrderRequest
  | market (symbol : String) (qty : ℕ) (side : String)
  | limit (symbol : String) (qty : ℕ) (side : String) (limit_price : ℚ)
deriving DecidableEq

/-- The result dicts built by the execution paths. -/
inductive ExecResult
  | submitted_market (order_id : String)
  | submitted_limit (order_id : String) (limit_price : ℚ)
  | submitted_adaptive (chunks : ℕ) (results : List ExecResult)
  | failed (error : String)

/-- The `'status'` field of a result dict. -/
def ExecResult.status : ExecResult → String
  | .failed _ => "failed"
  | _ => "submitted"

/-- `ExecutionEngine.get_current_price` (source lines 637-643): position's
current price, falling back to the constant 100.0 on any failure. -/
def ExecutionEngine.get_current_price
    (get_position : String → Except String ℚ) (symbol : String) : ℚ :=
  match get_position symbol with
  | Except.ok price => price
  | Except.error _ => 100

/-- `ExecutionEngine.select_execution_strategy` (source lines 539-549). -/
def select_execution_strategy (order : Order) : String :=
  if 8/10 < order.signal.confidence then "AGGRESSIVE"
  else if 1000 < order.quantity then "PASSIVE"
  else "ADAPTIVE"

/-- Python `round(x, 2)`: round half to even at 2 decimal places. -/
def pyRound2 (x : ℚ) : ℚ :=
  let y := x * 100
  let f := ⌊y⌋
  let r := y - f
  ((if r < 1/2 then f else if 1/2 < r then f + 1
    else if f % 2 = 0 then f else f + 1 : ℤ) : ℚ) / 100

/-- `ExecutionEngine.aggressive_execution` (source lines 551-567). -/
def aggressive_execution (submit_order : OrderRequest → Except String String)
    (order : Order) : Except String ExecResult :=
  match submit_order (.market order.symbol order.quantity order.side) with
  | Except.ok order_id => Except.ok (.submitted_market order_id)
  | Except.error e => Except.error e

/-- `ExecutionEngine.passive_execution` (source lines 569-596): limit order
one basis point favourable to the last observed price. -/
def passive_execution (get_position : String → Except String ℚ)
    (submit_order : OrderRequest → Except String String)
    (order : Order) : Except String ExecResult :=
  let current_price := ExecutionEngine.get_current_price get_position order.symbol
  let limit_price :=
    if order.side == "buy" then current_price * (1 - 1/10000)
    else current_price * (1 + 1/10000)
  match submit_order
      (.limit order.symbol order.quantity order.side (pyRound2 limit_price)) with
  | Except.ok order_id => Except.ok (.submitted_limit order_id limit_price)
  | Except.error e => Except.error e

/-- The chunk loop of `adaptive_execution` (source lines 611-628): chunk `i`
goes out aggressively when `i` is even, passively when odd; the first failure
aborts the loop (the Python exception propagates). -/
def adaptive_loop (get_position : String → Except String ℚ)
    (submit_order : OrderRequest → Except String String) (order : Order) :
    ℕ → List ℕ → Except String (List ExecResult)
  | _, [] => Except.ok []
  | i, chunk :: rest =>
    let chunk_order := { order with quantity := chunk }
    let step :=
      if i % 2 = 0 then aggressive_execution submit_order chunk_order
      else passive_execution get_position submit_order chunk_order
    match step with
    | Except.error e => Except.error e
    | Except.ok result =>
      match adaptive_loop get_position submit_order order (i + 1) rest with
      | Except.error e => Except.error e
      | Except.ok results => Except.ok (result :: results)

/-- `ExecutionEngine.adaptive_execution` (source lines 598-635). -/
def adaptive_execution (get_position : String → Except String ℚ)
    (submit_order : OrderRequest → Except String String)
    (order : Order) : Except String ExecResult :=
  let chunks := adaptive_chunks order.quantity
  match adaptive_loop get_position submit_order order 0 chunks with
  | Except.error e => Except.error e
  | Except.ok results => Except.ok (.submitted_adaptive chunks.length results)

/-- The `try:` block of `ExecutionEngine.execute_order` (source lines 522-533). -/
def execute_order_body (get_position : String → Except String ℚ)
    (submit_order : OrderRequest → Except String String)
    (order : Order) : Except String ExecResult :=
  let execution_strategy := select_execution_strategy order
  if execution_strategy == "AGGRESSIVE" then
    aggressive_execution submit_order order
  else if execution_strategy == "PASSIVE" then
    passive_execution get_position submit_order order
  else adaptive_execution get_position submit_order order

/-- `ExecutionEngine.execute_order` (source lines 520-537): the `except`
clause converts any failure into `{'status': 'failed', 'error': str(e)}`. -/
def execute_order (get_position : String → Except String ℚ)
    (submit_order : OrderRequest → Except String String)
    (order : Order) : ExecResult :=
  match execute_order_body get_position submit_order order with
  | Except.ok result => result
  | Except.error e => ExecResult.failed e

/-! ## AlphaSignalGenerator technical features (source lines 262-302)

Series are lists of rationals; `rolling(window).mean().iloc[-1]` with at
least `window` samples is the mean of the trailing `window` entries. -/

/-- Trailing `window`-mean of a list (pandas `rolling(window).mean().iloc[-1]`
when at least `window` samples exist). -/
def trailingMean (window : ℕ) (l : List ℚ) : ℚ :=
  (l.drop (l.length - window)).sum / window

/-- `Series.diff()` without its leading NaN. -/
def diffs : List ℚ → List ℚ
  | [] => []
  | [_] => []
  | a :: b :: rest => (b - a) :: diffs (b :: rest)

/-- `AlphaSignalGenerator.calculate_rsi` (source lines 262-274): returns the
neutral 50 below `period + 1` samples.  The `loss = 0` cases spell out the
IEEE semantics of the source's `gain / loss` (`x/0 = ∞` makes the RSI 100;
`0/0 = NaN` makes the final NaN check fall back to 50). -/
def calculate_rsi (prices : List ℚ) (period : ℕ := 14) : ℚ :=
  if prices.length < period + 1 then 50
  else
    let delta := diffs prices
    let gain := trailingMean period (delta.map (fun d => max d 0))
    let loss := trailingMean period (delta.map (fun d => max (-d) 0))
    if loss = 0 then (if gain = 0 then 50 else 100)
    else 100 - 100 / (1 + gain / loss)

/-- `AlphaSignalGenerator.calculate_bollinger_position` (source lines
288-302), parameterised by the square-root routine inside the rolling
standard deviation (`Series.std`, sample variance with `ddof = 1`), which has
no exact rational counterpart; the insufficient-history guard fires before
`sqrt` is ever consulted. -/
def calculate_bollinger_position (sqrt : ℚ → ℚ) (prices : List ℚ)
    (period : ℕ := 20) : ℚ :=
  if prices.length < period then 1/2
  else
    let window := prices.drop (prices.length - period)
    let sma := window.sum / period
    let std := sqrt ((window.map (fun p => (p - sma)^2)).sum / (period - 1))
    let upper_band := sma + std * 2
    let lower_band := sma - std * 2
    let current_price := prices.getLast?.getD 0
    let position := (current_price - lower_band) / (upper_band - lower_band)
    min (max position 0) 1

/-- C1: the Kelly-derived position fraction is non-negative and at most 1/10,
is exactly 0 when `expected_return ≤ 0` or `win_probability ≤ 1/2`, and equals
the 1/10 cap when `win_probability = 1` and `expected_return > 0`. -/
theorem kelly_fraction_bounds (er p : ℚ) :
    (0 ≤ calculate_kelly_fraction er p ∧ calculate_kelly_fraction er p ≤ 1/10) ∧
    ((er ≤ 0 ∨ p ≤ 1/2) → calculate_kelly_fraction er p = 0) ∧
    ((0 < er ∧ p = 1) → calculate_kelly_fraction er p = 1/10) := by
  unfold calculate_kelly_fraction
  by_cases h : er ≤ 0 ∨ p ≤ 1/2
  · rw [if_pos h]
    refine ⟨⟨le_refl 0, by norm_num⟩, fun _ => rfl, fun hc => ?_⟩
    rcases h with h | h
    · exact absurd hc.1 (not_lt.mpr h)
    · rw [hc.2] at h; norm_num at h
  · rw [if_neg h]
    refine ⟨⟨le_max_left 0 _, ?_⟩, fun hc => absurd hc h, fun hc => ?_⟩
    · exact max_le (by norm_num) (min_le_right _ _)
    · rw [hc.2]; norm_num

/-- Witness for C1: at `expected_return = 2/100`, `win_probability = 1` the
hypotheses hold and the fraction evaluates to the cap. -/
theorem kelly_fraction_bounds_witness :
    (0 < (2/100 : ℚ) ∧ (1 : ℚ) = 1) ∧ calculate_kelly_fraction (2/100) 1 = 1/10 :=
  ⟨⟨by norm_num, rfl⟩, (kelly_fraction_bounds (2/100) 1).2.2 ⟨by norm_num, rfl⟩⟩

/-- Every order a constraint pass emits descends from an input order with the
same symbol and a quantity at least as large. -/
theorem apply_risk_constraints_mem (orders : List Order) (rm : RiskMetrics)
    (o : Order) (ho : o ∈ apply_risk_constraints orders rm) :
    ∃ o' ∈ orders, o.symbol = o'.symbol ∧ o.quantity ≤ o'.quantity := by
  unfold apply_risk_constraints at ho
  have ho₂ := (List.mem_filter.1 ho).1
  have ho₁ : o ∈ (if max_leverage * (8/10) < rm.current_leverage then
      orders.map (fun o => { o with quantity := o.quantity / 2 }) else orders) := by
    split at ho₂
    · exact List.take_subset 3 _ ho₂
    · exact ho₂
  split at ho₁
  · obtain ⟨o', ho', rfl⟩ := List.mem_map.1 ho₁
    exact ⟨o', ho', rfl, Nat.div_le_self _ 2⟩
  · exact ⟨o, ho₁, rfl, le_refl _⟩

/-- A sized order's notional is bounded by the three-way min's last two arms. -/
theorem size_signal_notional (account : Account)
    (get_position : String → Except String ℚ) (signal : Signal) (o : Order)
    (h : size_signal account get_position signal = some o)
    (hpr : 0 < RiskManagementEngine.get_current_price get_position signal.symbol) :
    o.symbol = signal.symbol ∧
    (o.quantity : ℚ) * RiskManagementEngine.get_current_price get_position signal.symbol
      ≤ min (max_position_size * account.equity) (account.buying_power * (9/10)) := by
  unfold size_signal at h
  dsimp only at h
  split_ifs at h with hd hps hq hside
  all_goals rw [Option.some.injEq] at h
  all_goals subst h
  all_goals refine ⟨rfl, ?_⟩
  all_goals
    set price := RiskManagementEngine.get_current_price get_position signal.symbol
    set ps := min (calculate_kelly_fraction signal.expected_return signal.confidence
      * account.equity) (min (max_position_size * account.equity)
      (account.buying_power * (9/10))) with hps_def
    have hps_pos : (0 : ℚ) < ps := lt_trans (by norm_num) hps
    have hfl_nonneg : (0 : ℤ) ≤ ⌊ps / price⌋ :=
      Int.floor_nonneg.2 (le_of_lt (div_pos hps_pos hpr))
    have hcast : ((⌊ps / price⌋.toNat : ℕ) : ℚ) = ((⌊ps / price⌋ : ℤ) : ℚ) := by
      rw [← Int.cast_natCast]
      exact congrArg _ (Int.toNat_of_nonneg hfl_nonneg)
    calc ((⌊ps / price⌋.toNat : ℕ) : ℚ) * price
        = ((⌊ps / price⌋ : ℤ) : ℚ) * price := by rw [hcast]
      _ ≤ (ps / price) * price :=
          mul_le_mul_of_nonneg_right (Int.floor_le _) (le_of_lt hpr)
      _ = ps := div_mul_cancel₀ ps (ne_of_gt hpr)
      _ ≤ _ := min_le_right _ _

/-- C2: every order produced by `optimize_portfolio` (for any signals, any
account with positive equity and buying power, any positive prices, any risk
metrics) has `quantity × current price ≤ min(0.1 × equity, buying power)`. -/
theorem optimize_portfolio_respects_caps (signals : List Signal)
    (account : Account) (get_position : String → Except String ℚ)
    (risk_metrics : RiskMetrics)
    (heq : 0 < account.equity) (hbp : 0 < account.buying_power)
    (hpr : ∀ sym, 0 < RiskManagementEngine.get_current_price get_position sym)
    (o : Order)
    (ho : o ∈ optimize_portfolio signals account get_position risk_metrics) :
    (o.quantity : ℚ) * RiskManagementEngine.get_current_price get_position o.symbol
      ≤ min ((1/10) * account.equity) account.buying_power := by
  unfold optimize_portfolio at ho
  obtain ⟨o', ho', hsym, hqty⟩ := apply_risk_constraints_mem _ _ o ho
  obtain ⟨s, _, hs⟩ := List.mem_filterMap.1 ho'
  obtain ⟨hsym', hbound⟩ := size_signal_notional account get_position s o' hs
    (hpr s.symbol)
  have hprice : 0 < RiskManagementEngine.get_current_price get_position o.symbol :=
    hpr o.symbol
  have hstep : (o.quantity : ℚ) *
      RiskManagementEngine.get_current_price get_position o.symbol
      ≤ (o'.quantity : ℚ) *
      RiskManagementEngine.get_current_price get_position o.symbol := by
    apply mul_le_mul_of_nonneg_right _ (le_of_lt hprice)
    exact_mod_cast hqty
  rw [hsym, hsym'] at hstep ⊢
  refine le_trans hstep (le_trans hbound ?_)
  have h910 : account.buying_power * (9/10) ≤ account.buying_power := by
    nlinarith
  exact le_trans (min_le_min (le_of_eq (by unfold max_position_size; ring)) h910)
    (le_refl _)

/-- The demo scenario evaluates to exactly the 200-share order. -/
theorem demo_optimize_eval :
    optimize_portfolio [demoSignal] demoAccount demoBroker demoRisk =
      [demoOrder] := by
  norm_num [optimize_portfolio, size_signal, apply_risk_constraints,
    RiskManagementEngine.get_current_price, calculate_kelly_fraction,
    max_position_size, max_leverage, List.filter, List.filterMap,
    demoSignal, demoAccount, demoBroker, demoRisk, demoOrder]
  rfl

/-- Witness for C2: in the demo scenario the hypotheses hold, the 200-share
order is produced, and its notional respects the cap. -/
theorem optimize_portfolio_respects_caps_witness :
    demoOrder ∈ optimize_portfolio [demoSignal] demoAccount demoBroker demoRisk ∧
    (demoOrder.quantity : ℚ) *
        RiskManagementEngine.get_current_price demoBroker demoOrder.symbol
      ≤ min ((1/10) * demoAccount.equity) demoAccount.buying_power := by
  have hmem : demoOrder ∈
      optimize_portfolio [demoSignal] demoAccount demoBroker demoRisk := by
    rw [demo_optimize_eval]
    exact List.mem_singleton.2 rfl
  exact ⟨hmem, optimize_portfolio_respects_caps [demoSignal] demoAccount
    demoBroker demoRisk (by norm_num [demoAccount]) (by norm_num [demoAccount])
    (fun s => by norm_num [demoBroker, RiskManagementEngine.get_current_price])
    demoOrder hmem⟩

/-- C8: when portfolio leverage exceeds 80% of the configured maximum
leverage, every order surviving the Risk Engine's constraint pass has a
quantity strictly smaller than that of the proposed order it came from. -/
theorem apply_risk_constraints_shrinks (orders : List Order)
    (risk_metrics : RiskMetrics) (hne : orders ≠ [])
    (hpos : ∀ o ∈ orders, 0 < o.quantity)
    (hlev : max_leverage * (8/10) < risk_metrics.current_leverage)
    (o : Order) (ho : o ∈ apply_risk_constraints orders risk_metrics) :
    ∃ o' ∈ orders, o.symbol = o'.symbol ∧ o.quantity < o'.quantity := by
  unfold apply_risk_constraints at ho
  dsimp only at ho
  rw [if_pos hlev] at ho
  have ho₂ := (List.mem_filter.1 ho).1
  have ho₁ : o ∈ orders.map (fun o => { o with quantity := o.quantity / 2 }) := by
    split at ho₂
    · exact List.take_subset 3 _ ho₂
    · exact ho₂
  obtain ⟨o', ho', rfl⟩ := List.mem_map.1 ho₁
  exact ⟨o', ho', rfl, Nat.div_lt_self (hpos o' ho') (by norm_num)⟩

/-- Under excessive leverage the constraint pass halves the demo order. -/
theorem demo_constraints_eval :
    apply_risk_constraints [demoOrder] demoRiskHighLev = [demoOrderHalf] := by
  norm_num [apply_risk_constraints, max_leverage, demoOrder, demoOrderHalf,
    demoRiskHighLev, demoSignal, List.filter]

/-- Witness for C8: the halved demo order is in the output and is strictly
smaller than the input order it came from. -/
theorem apply_risk_constraints_shrinks_witness :
    demoOrderHalf ∈ apply_risk_constraints [demoOrder] demoRiskHighLev ∧
    ∃ o' ∈ [demoOrder], demoOrderHalf.symbol = o'.symbol ∧
      demoOrderHalf.quantity < o'.quantity := by
  have hmem : demoOrderHalf ∈ apply_risk_constraints [demoOrder] demoRiskHighLev := by
    rw [demo_constraints_eval]
    exact List.mem_singleton.2 rfl
  exact ⟨hmem, apply_risk_constraints_shrinks [demoOrder] demoRiskHighLev
    (List.cons_ne_nil _ _)
    (by intro o h; rw [List.mem_singleton] at h; subst h; norm_num [demoOrder])
    (by norm_num [max_leverage, demoRiskHighLev]) demoOrderHalf hmem⟩

/-- C3 counterexample: a 23-unit order is NOT split into chunks
`[5,5,5,5,3]` with 4 delays — the source's chunk size is `23 // 5 = 4`. -/
theorem adaptive_chunks_23_counterexample :
    ¬(adaptive_chunks 23 = [5, 5, 5, 5, 3] ∧ adaptive_delay_count 23 = 4) := by
  decide

/-- C3 amended: a 23-unit order is split into 6 chunks `[4,4,4,4,4,3]`
summing to 23, and the inter-chunk delay is invoked exactly 5 times (after
every chunk except the last). -/
theorem adaptive_chunks_23 :
    adaptive_chunks 23 = [4, 4, 4, 4, 4, 3] ∧
    (adaptive_chunks 23).sum = 23 ∧ adaptive_delay_count 23 = 5 := by
  decide

/-- C4 (code bug): the pre-trade check can never flag a wash sale — for every
trade log, timestamp and order it propagates the `NameError` that the PDT
check raises (the module uses `os.getenv` without importing `os`), aborting
before the wash-sale check runs.  The wash-sale helper in isolation does
behave as the claim says: against a log holding a sell of AAPL at day 0 it
flags a buy at day 15 and passes a buy at day 40. -/
theorem pre_trade_check_always_raises :
    (∀ (trade_log : List TradeLogEntry) (now : ℤ) (sym side : String),
      pre_trade_check trade_log now sym side =
        Except.error "NameError: name 'os' is not defined") ∧
    is_wash_sale [⟨0, ⟨"AAPL", "sell"⟩⟩] 15 "AAPL" "buy" = true ∧
    is_wash_sale [⟨0, ⟨"AAPL", "sell"⟩⟩] 40 "AAPL" "buy" = false :=
  ⟨fun _ _ _ _ => rfl, by decide, by decide⟩

/-- C5 counterexample: when all four confidence boosts fire (negative Kyle
lambda, no `vpin` key, oversold RSI, positive MACD) the uncapped confidence
is 1.0, the capped field is 0.9, and `expected_return = 0.02 ≠ 1 × 0.9 × 0.02`. -/
theorem ml_predict_expected_return_counterexample :
    ¬((ml_predict [("kyle_lambda", -1)] [("rsi", 20), ("macd_signal", 1)]).expected_return
      = ((ml_predict [("kyle_lambda", -1)]
          [("rsi", 20), ("macd_signal", 1)]).direction : ℚ) *
        (ml_predict [("kyle_lambda", -1)]
          [("rsi", 20), ("macd_signal", 1)]).confidence * (2/100)) := by
  have h1 : dictGet [("kyle_lambda", -1)] "kyle_lambda" 0 = -1 := rfl
  have h2 : dictGet [("kyle_lambda", -1)] "vpin" 0 = 0 := rfl
  have h3 : dictGet [("rsi", 20), ("macd_signal", 1)] "rsi" 50 = 20 := rfl
  have h4 : dictGet [("rsi", 20), ("macd_signal", 1)] "macd_signal" 0 = 1 := rfl
  norm_num [ml_predict, ml_score_conf, h1, h2, h3, h4]

/-- C5 amended: `expected_return` equals direction × the uncapped accumulated
confidence × 0.02; the returned confidence field is that value capped at 0.9,
and the claimed identity in terms of the confidence field holds precisely
when the accumulated confidence is at most 0.9 or the direction is 0. -/
theorem ml_predict_expected_return (micro tech : List (String × ℚ)) :
    (ml_predict micro tech).confidence =
      min (ml_score_conf micro tech).2 (9/10) ∧
    (ml_predict micro tech).expected_return =
      ((ml_predict micro tech).direction : ℚ) *
        (ml_score_conf micro tech).2 * (2/100) ∧
    ((ml_predict micro tech).expected_return =
        ((ml_predict micro tech).direction : ℚ) *
          (ml_predict micro tech).confidence * (2/100) ↔
      ((ml_score_conf micro tech).2 ≤ 9/10 ∨
        (ml_predict micro tech).direction = 0)) := by
  have hconf : (ml_predict micro tech).confidence =
      min (ml_score_conf micro tech).2 (9/10) := rfl
  have her : (ml_predict micro tech).expected_return =
      ((ml_predict micro tech).direction : ℚ) *
        (ml_score_conf micro tech).2 * (2/100) := rfl
  refine ⟨hconf, her, ?_⟩
  rw [her, hconf]
  constructor
  · intro h
    by_cases hd : (ml_predict micro tech).direction = 0
    · exact Or.inr hd
    · left
      have hd' : ((ml_predict micro tech).direction : ℚ) ≠ 0 :=
        Int.cast_ne_zero.2 hd
      have h2 := mul_right_cancel₀ (by norm_num : (2/100 : ℚ) ≠ 0) h
      have h3 := mul_left_cancel₀ hd' h2
      exact min_eq_left_iff.1 h3.symm
  · rintro (hle | hd)
    · rw [min_eq_left hle]
    · rw [hd]
      norm_num

/-- C10: for every pair of feature dicts the signal's confidence field lies
in [0.5, 0.9] and its direction is −1, 0 or 1. -/
theorem ml_predict_confidence_direction_bounds
    (micro tech : List (String × ℚ)) :
    1/2 ≤ (ml_predict micro tech).confidence ∧
    (ml_predict micro tech).confidence ≤ 9/10 ∧
    ((ml_predict micro tech).direction = -1 ∨
      (ml_predict micro tech).direction = 0 ∨
      (ml_predict micro tech).direction = 1) := by
  have hraw : 1/2 ≤ (ml_score_conf micro tech).2 := by
    unfold ml_score_conf
    dsimp only
    split_ifs <;> norm_num
  have hconf : (ml_predict micro tech).confidence =
      min (ml_score_conf micro tech).2 (9/10) := rfl
  have hdir : (ml_predict micro tech).direction =
      (if 1 < (ml_score_conf micro tech).1 then 1
        else if (ml_score_conf micro tech).1 < -1 then -1 else 0) := rfl
  refine ⟨?_, ?_, ?_⟩
  · rw [hconf]
    exact le_min hraw (by norm_num)
  · rw [hconf]
    exact min_le_right _ _
  · rw [hdir]
    split_ifs <;> simp

/-- Every chunk list for a positive quantity is nonempty. -/
theorem adaptive_chunks_ne_nil (q : ℕ) (hq : 0 < q) :
    adaptive_chunks q ≠ [] := by
  cases q with
  | zero => omega
  | succ n => simp [adaptive_chunks, buildChunks]

/-- A successful aggressive execution reports status `submitted`. -/
theorem aggressive_execution_status
    (submit_order : OrderRequest → Except String String) (order : Order)
    (r : ExecResult) (h : aggressive_execution submit_order order = .ok r) :
    r.status = "submitted" := by
  unfold aggressive_execution at h
  split at h
  · injection h with h
    subst h
    rfl
  · exact Except.noConfusion h

/-- A successful passive execution reports status `submitted`. -/
theorem passive_execution_status (get_position : String → Except String ℚ)
    (submit_order : OrderRequest → Except String String) (order : Order)
    (r : ExecResult) (h : passive_execution get_position submit_order order = .ok r) :
    r.status = "submitted" := by
  unfold passive_execution at h
  dsimp only at h
  split at h
  · injection h with h
    subst h
    rfl
  · exact Except.noConfusion h

/-- A successful adaptive execution reports status `submitted`. -/
theorem adaptive_execution_status (get_position : String → Except String ℚ)
    (submit_order : OrderRequest → Except String String) (order : Order)
    (r : ExecResult) (h : adaptive_execution get_position submit_order order = .ok r) :
    r.status = "submitted" := by
  unfold adaptive_execution at h
  dsimp only at h
  split at h
  · exact Except.noConfusion h
  · injection h with h
    subst h
    rfl

/-- C6: `execute_order` is total and always returns a result whose status is
`submitted` or `failed`; with an injected always-failing order submission and
a positive quantity it returns the `failed` result carrying the reason. -/
theorem execute_order_never_raises (get_position : String → Except String ℚ)
    (submit_order : OrderRequest → Except String String) (order : Order)
    (reason : String) :
    ((execute_order get_position submit_order order).status = "submitted" ∨
      (execute_order get_position submit_order order).status = "failed") ∧
    (0 < order.quantity →
      execute_order get_position (fun _ => Except.error reason) order =
        ExecResult.failed reason) := by
  constructor
  · unfold execute_order
    cases hbody : execute_order_body get_position submit_order order with
    | error e => exact Or.inr rfl
    | ok r =>
      left
      unfold execute_order_body at hbody
      dsimp only at hbody
      split_ifs at hbody
      · exact aggressive_execution_status _ _ _ hbody
      · exact passive_execution_status _ _ _ _ hbody
      · exact adaptive_execution_status _ _ _ _ hbody
  · intro hq
    have hbody : execute_order_body get_position (fun _ => Except.error reason)
        order = Except.error reason := by
      unfold execute_order_body
      dsimp only
      split_ifs
      · simp [aggressive_execution]
      · simp [passive_execution]
      · obtain ⟨c, rest, hch⟩ :=
          List.exists_cons_of_ne_nil (adaptive_chunks_ne_nil _ hq)
        unfold adaptive_execution
        dsimp only
        rw [hch]
        simp [adaptive_loop, aggressive_execution]
    unfold execute_order
    rw [hbody]

/-- Witness for C6: the demo order executes with a stub broker and succeeds,
and with the injected always-failing submission it yields the failed result. -/
theorem execute_order_never_raises_witness :
    ((execute_order demoBroker (fun _ => Except.ok "oid-1") demoOrder).status
        = "submitted" ∨
      (execute_order demoBroker (fun _ => Except.ok "oid-1") demoOrder).status
        = "failed") ∧
    execute_order demoBroker (fun _ => Except.error "boom") demoOrder =
      ExecResult.failed "boom" := by
  have h := execute_order_never_raises demoBroker (fun _ => Except.ok "oid-1")
    demoOrder "boom"
  exact ⟨h.1, h.2 (by norm_num [demoOrder])⟩

/-- C9: below the minimum sample counts the feature functions return their
documented neutral values — RSI 50 below 15 prices, band position 0.5 below
20 prices — for every price series and every square-root routine. -/
theorem insufficient_history_neutral (prices : List ℚ) (sqrt : ℚ → ℚ) :
    (prices.length < 15 → calculate_rsi prices = 50) ∧
    (prices.length < 20 → calculate_bollinger_position sqrt prices = 1/2) := by
  constructor
  · intro h
    unfold calculate_rsi
    rw [if_pos h]
  · intro h
    unfold calculate_bollinger_position
    rw [if_pos h]

/-- Witness for C9: a three-price series is below both thresholds and both
neutral values are returned. -/
theorem insufficient_history_neutral_witness :
    (([1, 2, 3] : List ℚ).length < 15 ∧ calculate_rsi [1, 2, 3] = 50) ∧
    (([1, 2, 3] : List ℚ).length < 20 ∧
      calculate_bollinger_position (fun _ => 0) [1, 2, 3] = 1/2) :=
  ⟨⟨by norm_num, (insufficient_history_neutral [1, 2, 3] (fun _ => 0)).1
      (by norm_num)⟩,
   ⟨by norm_num, (insufficient_history_neutral [1, 2, 3] (fun _ => 0)).2
      (by norm_num)⟩⟩

/-- C7 (code bug): both `get_current_price` lookups swallow a brokerage
failure and fabricate the constant price 100.0 instead of surfacing the
failure (`RiskManagementEngine.get_current_price`, source lines 431-438, and
`ExecutionEngine.get_current_price`, source lines 637-643) — the fallback
behaviour §7 of the spec explicitly rejects. -/
theorem get_current_price_fabricates_on_failure :
    RiskManagementEngine.get_current_price
      (fun _ => Except.error "position lookup failed") "AAPL" = 100 ∧
    ExecutionEngine.get_current_price
      (fun _ => Except.error "position lookup failed") "AAPL" = 100 :=
  ⟨rfl, rfl⟩

end TradingSystem
